import Mathlib

/-!
Verification of the Sierra shared library's error taxonomy and result
container against its C++ sources (include/sierra/error.hpp,
include/sierra/result.hpp, include/sierra/status.hpp,
include/sierra/utils/float.hpp).  Machine integers are modelled as Nat
with explicit reduction modulo 2^64 where overflow matters; C++ strings
are Lean Strings; reading the dead member of the tagged union (undefined
behaviour in C++) is modelled by Option-valued accessors returning none.
-/

set_option maxRecDepth 4000

namespace Srr

/-- Error codes: embeds `enum class Err : u8` from include/sierra/error.hpp
(the current, richer catalog variant).  Enumerator values run 0..22 in
declaration order, `ERR_COUNT` being the declared sentinel with value 22. -/
inductive Err where
  | OK
  | FAILURE
  | NOT_IMPLEMENTED
  | INDEX_OUT_OF_RANGE
  | NO_SUCH_KEY
  | INVALID_NUMBER
  | FS_NO_SUCH_PATH
  | FS_NO_SUCH_FILE
  | FS_NO_SUCH_DIR
  | FS_NO_SUCH_PARENT
  | FS_FILE_ALREADY_EXISTS
  | FS_DIR_ALREADY_EXISTS
  | FS_FAILED_TO_OPEN
  | JSON_BAD_CAST
  | JSON_BAD_SUBTYPE
  | JSON_BAD_ASSUMED
  | JSON_BAD_TOKEN
  | JSON_SYNTAX_EXP_VALUE
  | JSON_SYNTAX_EXP_KEY
  | JSON_SYNTAX_EXP_SEP
  | JSON_SYNTAX_DBL_KEY
  | JSON_SYNTAX_DBL_ROOT
  | ERR_COUNT
  deriving DecidableEq, Repr

/-- Underlying `u8` value of each declared enumerator (the enum assigns
`OK = 0` and lets the rest count up). -/
def Err.toU8 : Err → Nat
  | .OK => 0
  | .FAILURE => 1
  | .NOT_IMPLEMENTED => 2
  | .INDEX_OUT_OF_RANGE => 3
  | .NO_SUCH_KEY => 4
  | .INVALID_NUMBER => 5
  | .FS_NO_SUCH_PATH => 6
  | .FS_NO_SUCH_FILE => 7
  | .FS_NO_SUCH_DIR => 8
  | .FS_NO_SUCH_PARENT => 9
  | .FS_FILE_ALREADY_EXISTS => 10
  | .FS_DIR_ALREADY_EXISTS => 11
  | .FS_FAILED_TO_OPEN => 12
  | .JSON_BAD_CAST => 13
  | .JSON_BAD_SUBTYPE => 14
  | .JSON_BAD_ASSUMED => 15
  | .JSON_BAD_TOKEN => 16
  | .JSON_SYNTAX_EXP_VALUE => 17
  | .JSON_SYNTAX_EXP_KEY => 18
  | .JSON_SYNTAX_EXP_SEP => 19
  | .JSON_SYNTAX_DBL_KEY => 20
  | .JSON_SYNTAX_DBL_ROOT => 21
  | .ERR_COUNT => 22

/-- Partial inverse of `Err.toU8`: the declared enumerator with a given
underlying `u8` value, or `none` when no enumerator has that value.  A C++
`Err` object can hold any `u8` value; only 0..22 name declared enumerators. -/
def Err.ofU8 : Nat → Option Err
  | 0 => some .OK
  | 1 => some .FAILURE
  | 2 => some .NOT_IMPLEMENTED
  | 3 => some .INDEX_OUT_OF_RANGE
  | 4 => some .NO_SUCH_KEY
  | 5 => some .INVALID_NUMBER
  | 6 => some .FS_NO_SUCH_PATH
  | 7 => some .FS_NO_SUCH_FILE
  | 8 => some .FS_NO_SUCH_DIR
  | 9 => some .FS_NO_SUCH_PARENT
  | 10 => some .FS_FILE_ALREADY_EXISTS
  | 11 => some .FS_DIR_ALREADY_EXISTS
  | 12 => some .FS_FAILED_TO_OPEN
  | 13 => some .JSON_BAD_CAST
  | 14 => some .JSON_BAD_SUBTYPE
  | 15 => some .JSON_BAD_ASSUMED
  | 16 => some .JSON_BAD_TOKEN
  | 17 => some .JSON_SYNTAX_EXP_VALUE
  | 18 => some .JSON_SYNTAX_EXP_KEY
  | 19 => some .JSON_SYNTAX_EXP_SEP
  | 20 => some .JSON_SYNTAX_DBL_KEY
  | 21 => some .JSON_SYNTAX_DBL_ROOT
  | 22 => some .ERR_COUNT
  | _ => none

/-- Embeds `enum class ErrType : u8` (error category) from error.hpp. -/
inductive ErrType where
  | NONE
  | FSYS
  | JSON
  deriving DecidableEq, Repr

/-- Embeds `enum class ErrSubtype : u8` (error subcategory) from error.hpp. -/
inductive ErrSubtype where
  | NONE
  | ACCESS
  | CAST
  | PARSE
  | SYNTAX
  deriving DecidableEq, Repr

/-- Embeds `struct ErrInfo` from error.hpp: message plus two-level
classification.  The C++ struct defaults `type` and `subtype` to NONE;
the defaults are expanded at every construction site below. -/
structure ErrInfo where
  msg : String
  type : ErrType
  subtype : ErrSubtype
  deriving DecidableEq, Repr

/-- Embeds `lookupInfo(Err)` from error.hpp: the exhaustive switch over the
declared enumerators.  Designated-initializer defaults (`type = NONE`,
`subtype = NONE`) are written out explicitly. -/
def lookupInfo : Err → ErrInfo
  | .OK => ⟨"Ok", .NONE, .NONE⟩
  | .FAILURE => ⟨"Failure", .NONE, .NONE⟩
  | .NOT_IMPLEMENTED => ⟨"Not implemented", .NONE, .NONE⟩
  | .INDEX_OUT_OF_RANGE => ⟨"Index out of range", .NONE, .ACCESS⟩
  | .NO_SUCH_KEY => ⟨"No such key", .NONE, .ACCESS⟩
  | .INVALID_NUMBER => ⟨"Invalid number", .NONE, .PARSE⟩
  | .FS_NO_SUCH_PATH => ⟨"No such file or directory", .FSYS, .ACCESS⟩
  | .FS_NO_SUCH_FILE => ⟨"No such file", .FSYS, .ACCESS⟩
  | .FS_NO_SUCH_DIR => ⟨"No such directory", .FSYS, .ACCESS⟩
  | .FS_NO_SUCH_PARENT => ⟨"No such parent directory", .FSYS, .ACCESS⟩
  | .FS_FILE_ALREADY_EXISTS => ⟨"File already exists", .FSYS, .ACCESS⟩
  | .FS_DIR_ALREADY_EXISTS => ⟨"Directory already exists", .FSYS, .ACCESS⟩
  | .FS_FAILED_TO_OPEN => ⟨"Failed to open file", .FSYS, .ACCESS⟩
  | .JSON_BAD_CAST => ⟨"Attempted to cast to wrong type", .JSON, .CAST⟩
  | .JSON_BAD_SUBTYPE => ⟨"Attempted to cast to wrong subtype", .JSON, .CAST⟩
  | .JSON_BAD_ASSUMED => ⟨"Assumed (implicit cast) to wrong type", .JSON, .CAST⟩
  | .JSON_BAD_TOKEN => ⟨"Invalid token", .JSON, .PARSE⟩
  | .JSON_SYNTAX_EXP_VALUE => ⟨"Was expecting value", .JSON, .SYNTAX⟩
  | .JSON_SYNTAX_EXP_KEY => ⟨"Was expecting key", .JSON, .SYNTAX⟩
  | .JSON_SYNTAX_EXP_SEP => ⟨"Was expecting separator", .JSON, .SYNTAX⟩
  | .JSON_SYNTAX_DBL_KEY => ⟨"Key was specified twice", .JSON, .SYNTAX⟩
  | .JSON_SYNTAX_DBL_ROOT => ⟨"Tree has multiple root objects", .JSON, .SYNTAX⟩
  | .ERR_COUNT => ⟨"Unknown error", .NONE, .NONE⟩

/-- Behaviour of `lookupInfo` on an `Err` object holding an arbitrary `u8`
value `n`: the switch has a case for each declared enumerator and no
default, so for an undeclared value control falls off the end of the
function (undefined behaviour), modelled as `none`. -/
def lookupInfoRaw (n : Nat) : Option ErrInfo :=
  Option.map lookupInfo (Err.ofU8 n)

/-- Embeds the `lookupPrefix(ErrType)` overload from error.hpp (renamed:
Lean has no overloading; the bracketed category tag of a category). -/
def lookupPrefType : ErrType → String
  | .NONE => ""
  | .FSYS => "[fsys]"
  | .JSON => "[json]"

/-- Embeds the `lookupPrefix(ErrSubtype)` overload from error.hpp (the
bracketed subcategory tag of a subcategory). -/
def lookupPrefSubtype : ErrSubtype → String
  | .NONE => ""
  | .ACCESS => "[access]"
  | .CAST => "[cast]"
  | .PARSE => "[parse]"
  | .SYNTAX => "[syntax]"

/-- Embeds `lookupMsg(Err)` from error.hpp: starts from the empty string,
appends the category tag then the subcategory tag, appends a single space
iff the accumulated string is non-empty, then appends the base message. -/
def lookupMsg (e : Err) : String :=
  let info := lookupInfo e
  let msg : String := ""
  let msg := msg ++ lookupPrefType info.type
  let msg := msg ++ lookupPrefSubtype info.subtype
  let msg := if !msg.isEmpty then msg ++ " " else msg
  msg ++ info.msg

/-- Embeds `ERR_TABLE` from the legacy flat catalog variant of error.hpp
(the historical `enum class Err { OK, FAILURE, ERR_COUNT }` table, sized
by that variant's `ERR_COUNT` = 2). -/
def ERR_TABLE : List String := ["Ok", "Failure"]

/-- Embeds the legacy `lookup(Err)` from the flat catalog variant of
error.hpp: `static_cast<usize>(err)` indexes `ERR_TABLE` when in range,
otherwise the fixed string "Unknown Error".  This is the `lookup` that
`Result::msg()` and `Status::msg()` call; the cast depends only on the
underlying `u8` value, so the argument here is the current `Err`. -/
def lookup (e : Err) : String :=
  let index := Err.toU8 e
  if h : index < ERR_TABLE.length then ERR_TABLE.get ⟨index, h⟩
  else "Unknown Error"

/-- Contents of the raw `union Data { T value; Err err; }` inside
`Result<T>` (result.hpp): exactly one member is live at a time. -/
inductive ResultData (T : Type) where
  | value : T → ResultData T
  | err : Err → ResultData T
  deriving DecidableEq, Repr

/-- Embeds `class Result<T>` from result.hpp: the union storage `data_`
plus the tag `ok_`.  The C++ `ResultValue` concept (safe destructibility,
safe move, conditional safe copy) is compile-time only, with no runtime
content, so `T` ranges over all Lean types. -/
structure Result (T : Type) where
  data_ : ResultData T
  ok_ : Bool
  deriving DecidableEq, Repr

/-- Embeds `Result(Err)` (result.hpp): sets `ok_ = false` and constructs
the `err` member of the union. -/
def Result.ofErr {T : Type} (e : Err) : Result T :=
  ⟨ResultData.err e, false⟩

/-- Embeds `Result(T &&)` and the identical-in-effect `Result(const T &)`
(result.hpp): sets `ok_ = true` and constructs the `value` member from the
argument (a move and a copy are indistinguishable in a pure model). -/
def Result.ofValue {T : Type} (v : T) : Result T :=
  ⟨ResultData.value v, true⟩

/-- Embeds the move constructor `Result(Result &&)` (result.hpp): copies
the tag, then transfers the branch the tag says is live — the value when
`ok_`, the code otherwise.  Reading the dead union member (tag and live
branch disagreeing, unreachable for containers built by the public
constructors) is undefined behaviour, modelled as `none`. -/
def Result.moveCtor {T : Type} (r : Result T) : Option (Result T) :=
  match r.ok_, r.data_ with
  | true, ResultData.value v => some ⟨ResultData.value v, true⟩
  | false, ResultData.err e => some ⟨ResultData.err e, false⟩
  | _, _ => none

/-- Embeds the copy constructor `Result(const Result &)` (result.hpp):
same branch transfer as the move constructor, duplicating the live branch
and leaving the source untouched. -/
def Result.copyCtor {T : Type} (r : Result T) : Option (Result T) :=
  match r.ok_, r.data_ with
  | true, ResultData.value v => some ⟨ResultData.value v, true⟩
  | false, ResultData.err e => some ⟨ResultData.err e, false⟩
  | _, _ => none

/-- Embeds `Result::ok()` (result.hpp): returns the tag. -/
def Result.ok {T : Type} (r : Result T) : Bool :=
  r.ok_

/-- Embeds `Result::bad()` (result.hpp): returns the negated tag. -/
def Result.bad {T : Type} (r : Result T) : Bool :=
  !r.ok_

/-- Embeds `Result::err()` (result.hpp): reads `data_.err`.  Reading it
while the value branch is live is undefined behaviour, modelled `none`. -/
def Result.err {T : Type} (r : Result T) : Option Err :=
  match r.data_ with
  | ResultData.err e => some e
  | ResultData.value _ => none

/-- Embeds the `Result::value()` accessors (result.hpp): read
`data_.value`.  Reading it while the error branch is live is undefined
behaviour, modelled `none`. -/
def Result.value {T : Type} (r : Result T) : Option T :=
  match r.data_ with
  | ResultData.value v => some v
  | ResultData.err _ => none

/-- Embeds `Result::msg()` (result.hpp): `return lookup(data_.err);` —
the legacy flat-table lookup applied to the stored code; reading
`data_.err` while the value branch is live is undefined, modelled `none`. -/
def Result.msg {T : Type} (r : Result T) : Option String :=
  match r.data_ with
  | ResultData.err e => some (lookup e)
  | ResultData.value _ => none

/-- Embeds `class Status` from status.hpp: a stored code only, no tag. -/
structure Status where
  err_ : Err
  deriving DecidableEq, Repr

/-- Embeds the default constructor `Status()` (status.hpp): stores OK. -/
def Status.mkDefault : Status :=
  ⟨Err.OK⟩

/-- Embeds `Status(Err)` (status.hpp): stores the given code. -/
def Status.ofErr (e : Err) : Status :=
  ⟨e⟩

/-- Embeds `Status::ok()` (status.hpp): `err_ == Err::OK`. -/
def Status.ok (s : Status) : Bool :=
  decide (s.err_ = Err.OK)

/-- Embeds `Status::bad()` (status.hpp): `err_ != Err::OK`. -/
def Status.bad (s : Status) : Bool :=
  decide (s.err_ ≠ Err.OK)

/-- Embeds `Status::err()` (status.hpp): returns the stored code. -/
def Status.err (s : Status) : Err :=
  s.err_

/-- Embeds `Status::msg()` (status.hpp): the legacy flat-table lookup of
the stored code. -/
def Status.msg (s : Status) : String :=
  lookup s.err_

/-- Character constant MINUS from utils/char.hpp (enum Ch value 45). -/
def MINUS : Char := '-'

/-- Character constant PLUS from utils/char.hpp (enum Ch value 43). -/
def PLUS : Char := '+'

/-- Character constant DOT from utils/char.hpp (enum Ch value 46). -/
def DOT : Char := '.'

/-- Character constant UP_E from utils/char.hpp (enum Ch value 69). -/
def UP_E : Char := 'E'

/-- Character constant E from utils/char.hpp (enum Ch value 101). -/
def E : Char := 'e'

/-- Constant BASE_DECIMAL = 10 from prims.hpp. -/
def BASE_DECIMAL : Nat := 10

/-- Modulus of `u64` arithmetic. -/
def U64_MOD : Nat := 2 ^ 64

/-- One iteration of the accumulation loop in `readFast` (utils/float.hpp):
`val = val * BASE_DECIMAL + static_cast<u64>(ptr[i] - NUM_0)` in `u64`
arithmetic.  `ptr[i] - NUM_0` is an `int` that may be negative; the cast
to `u64` wraps modulo 2^64.  Characters are taken by their code (the C++
view holds bytes; the concrete inputs used here are ASCII). -/
def readFastStep (val : Nat) (c : Char) : Nat :=
  (val * BASE_DECIMAL + (((c.toNat : Int) - 48) % (U64_MOD : Int)).toNat)
    % U64_MOD

/-- Accumulator value computed by the loop of `readFast` over the whole
view. -/
def readFastVal (s : List Char) : Nat :=
  s.foldl readFastStep 0

/-- Outcome of the numeric readers, abstracting the final
`static_cast<T>` to f32/f64: `num q` is a finite numeric result whose
exact pre-rounding value is `q` (the cast rounds to a nearby finite float
and never produces NaN), `nan` is the quiet-NaN sentinel
`limit<T, LimitType::QUIET_NAN>()`. -/
inductive FVal where
  | num : Rat → FVal
  | nan : FVal
  deriving DecidableEq, Repr

/-- Embeds `readFast<T>` (utils/float.hpp): the unchecked digit
accumulation; its result is the cast of the `u64` accumulator, always a
finite number, never NaN. -/
def readFast (s : List Char) : FVal :=
  FVal.num (readFastVal s)

/-- Longest run of decimal digits at the head of a character list,
together with the rest. -/
def spanDigits : List Char → List Char × List Char
  | [] => ([], [])
  | c :: rest =>
    if 48 ≤ c.toNat && c.toNat ≤ 57 then
      let p := spanDigits rest
      (c :: p.1, p.2)
    else ([], c :: rest)

/-- Numeric value of a digit run. -/
def digitsVal (s : List Char) : Nat :=
  s.foldl (fun a c => a * BASE_DECIMAL + (c.toNat - 48)) 0

/-- Modelled from the spec: the mantissa part of the number grammar
accepted by `std::from_chars` for floating-point values, which is
standard-library code not in this repository (the spec treats numeric
text-to-value parsing as an external collaborator whose malformed inputs
yield the NaN sentinel).  Accepts `digits`, `digits .  digits?` or
`. digits` and returns the exact value with the unconsumed rest. -/
def parseMantissa (s : List Char) : Option (Rat × List Char) :=
  let p := spanDigits s
  match p.2 with
  | '.' :: rest2 =>
    let q := spanDigits rest2
    if p.1.isEmpty && q.1.isEmpty then none
    else
      some ((digitsVal p.1 : Rat)
        + (digitsVal q.1 : Rat) / ((10 : Rat) ^ q.1.length), q.2)
  | rest => if p.1.isEmpty then none else some ((digitsVal p.1 : Rat), rest)

/-- Modelled from the spec: full-view parse by `std::from_chars`
(standard-library code not in this repository): optional minus sign,
mantissa, optional exponent part `e|E sign? digits`, succeeding only when
the whole view is consumed — exactly the `res.ec == errc() && res.ptr ==
end` check in `readFull`.  The `inf`/`nan` literal forms are outside the
spec's notion of a well-formed number and are omitted. -/
def parseNumber (s : List Char) : Option Rat :=
  let sgn : Bool × List Char :=
    match s with
    | '-' :: rest => (true, rest)
    | _ => (false, s)
  match parseMantissa sgn.2 with
  | none => none
  | some m =>
    let mv : Rat := if sgn.1 then -m.1 else m.1
    match m.2 with
    | [] => some mv
    | c :: rest2 =>
      if c == E || c == UP_E then
        let es : Bool × List Char :=
          match rest2 with
          | '-' :: r => (true, r)
          | '+' :: r => (false, r)
          | _ => (false, rest2)
        let q := spanDigits es.2
        if q.1.isEmpty then none
        else if q.2.isEmpty then
          let ev : Int :=
            if es.1 then -(digitsVal q.1 : Int) else (digitsVal q.1 : Int)
          some (mv * (10 : Rat) ^ ev)
        else none
      else none

/-- Embeds `readFull<T>` (utils/float.hpp): delegate to `std::from_chars`
over the whole view; on a full successful parse return the value,
otherwise return `limit<T, LimitType::QUIET_NAN>()`. -/
def readFull (s : List Char) : FVal :=
  match parseNumber s with
  | some q => FVal.num q
  | none => FVal.nan

/-- Dispatch scan of `read<T>` (utils/float.hpp): the loop runs to the
first occurrence of MINUS, UP_E, PLUS, DOT or E and returns
`readFull` there; calling `readFull` on the whole view at the first hit is
the same as calling it when any such character occurs. -/
def hasSpecial (s : List Char) : Bool :=
  s.any fun c => c == MINUS || c == UP_E || c == PLUS || c == DOT || c == E

/-- Embeds `read<T>` (utils/float.hpp): views containing one of the
special characters go to the validating `readFull`, all others go to the
unchecked `readFast`. -/
def read (s : List Char) : FVal :=
  if hasSpecial s then readFull s else readFast s

/-- Embeds `readF32` (utils/float.hpp): `read<f32>`. -/
def readF32 (s : List Char) : FVal :=
  read s

/-- Embeds `readF64` (utils/float.hpp): `read<f64>`. -/
def readF64 (s : List Char) : FVal :=
  read s

/-- C1: constructing a Result from an int value yields the Success state
(`ok` true, `bad` false, `value` reads back the stored value) and
constructing from an error code yields the Failure state (`bad` true,
`ok` false, `err` reads back the code); `ok` and `bad` are mutually
exclusive and always defined (`bad` is the negation of `ok` on every
container). -/
theorem C1_result_construction_accessors :
    (∀ v : Int, (Result.ofValue v : Result Int).ok = true
      ∧ (Result.ofValue v : Result Int).bad = false
      ∧ (Result.ofValue v : Result Int).value = some v)
    ∧ (∀ e : Err, (Result.ofErr e : Result Int).bad = true
      ∧ (Result.ofErr e : Result Int).ok = false
      ∧ (Result.ofErr e : Result Int).err = some e)
    ∧ (∀ r : Result Int, r.bad = !r.ok) :=
  ⟨fun _ => ⟨rfl, rfl, rfl⟩, fun _ => ⟨rfl, rfl, rfl⟩, fun _ => rfl⟩

/-- Witness for C1 at the concrete value 42 and the concrete code
INDEX_OUT_OF_RANGE. -/
theorem C1_result_construction_accessors_witness :
    (Result.ofValue (42 : Int) : Result Int).ok = true
    ∧ (Result.ofValue (42 : Int) : Result Int).value = some (42 : Int)
    ∧ (Result.ofErr Err.INDEX_OUT_OF_RANGE : Result Int).bad = true :=
  ⟨(C1_result_construction_accessors.1 42).1,
   (C1_result_construction_accessors.1 42).2.2,
   (C1_result_construction_accessors.2.1 Err.INDEX_OUT_OF_RANGE).1⟩

/-- C2 counterexample: the u8 value 23 is not a declared enumerator of
`Err`, and `lookupInfo` has no switch case for it — control falls off the
end of the function (undefined behaviour, modelled `none`) instead of
returning the fixed fallback record, refuting the claim that every
unknown u8 value yields the fallback record. -/
theorem C2_raw_unknown_code_cex :
    Err.ofU8 23 = none
    ∧ lookupInfoRaw 23 = none
    ∧ lookupInfoRaw 23 ≠ some ⟨"Unknown error", ErrType.NONE, ErrSubtype.NONE⟩ :=
  ⟨by decide, by decide, by decide⟩

/-- C2 amended: for every declared enumerator of `Err`, `lookupInfo`
returns a record with a non-empty message; the declared sentinel
`ERR_COUNT` returns the fixed fallback record with the generic message
"Unknown error" and no classification; but a u8 value that is not a
declared enumerator hits no switch case at all (no fallback record is
returned for it). -/
theorem C2_catalog_total_amended :
    (∀ e : Err, (lookupInfo e).msg ≠ "")
    ∧ lookupInfo Err.ERR_COUNT = ⟨"Unknown error", ErrType.NONE, ErrSubtype.NONE⟩
    ∧ (∀ n : Nat, Err.ofU8 n = none → lookupInfoRaw n = none) := by
  refine ⟨fun e => ?_, rfl, fun n h => ?_⟩
  · cases e <;> decide
  · unfold lookupInfoRaw
    rw [h]
    rfl

/-- Witness for C2 amended at the code FAILURE and the raw value 23. -/
theorem C2_catalog_total_amended_witness :
    (lookupInfo Err.FAILURE).msg ≠ "" ∧ lookupInfoRaw 23 = none :=
  ⟨C2_catalog_total_amended.1 Err.FAILURE,
   C2_catalog_total_amended.2.2 23 (by decide)⟩

/-- C3: for every code, the rendered text is the concatenation of the
bracketed category tag (empty when the category is None) and the
bracketed subcategory tag (empty when the subcategory is None), in that
order, followed by the base message, with a single space before the base
message exactly when that tag block is non-empty — so no leading space
when there is no tag; in particular FS_NO_SUCH_FILE renders as
"[fsys][access] No such file" and NOT_IMPLEMENTED as "Not implemented". -/
theorem C3_render_prefix_and_message :
    (∀ c : Err,
      lookupMsg c =
        (if lookupPrefType (lookupInfo c).type
              ++ lookupPrefSubtype (lookupInfo c).subtype = "" then
          (lookupInfo c).msg
        else
          lookupPrefType (lookupInfo c).type
            ++ lookupPrefSubtype (lookupInfo c).subtype
            ++ " " ++ (lookupInfo c).msg))
    ∧ lookupMsg Err.FS_NO_SUCH_FILE = "[fsys][access] No such file"
    ∧ lookupMsg Err.NOT_IMPLEMENTED = "Not implemented" := by
  refine ⟨fun c => ?_, by decide, by decide⟩
  cases c <;> decide

/-- Witness for C3 at the concrete code FS_NO_SUCH_PATH. -/
theorem C3_render_prefix_and_message_witness :
    lookupMsg Err.FS_NO_SUCH_PATH =
      (if lookupPrefType (lookupInfo Err.FS_NO_SUCH_PATH).type
            ++ lookupPrefSubtype (lookupInfo Err.FS_NO_SUCH_PATH).subtype = "" then
        (lookupInfo Err.FS_NO_SUCH_PATH).msg
      else
        lookupPrefType (lookupInfo Err.FS_NO_SUCH_PATH).type
          ++ lookupPrefSubtype (lookupInfo Err.FS_NO_SUCH_PATH).subtype
          ++ " " ++ (lookupInfo Err.FS_NO_SUCH_PATH).msg) :=
  C3_render_prefix_and_message.1 Err.FS_NO_SUCH_PATH

/-- C4 counterexample: for FS_NO_SUCH_FILE both tags are present, yet the
rendered text is "[fsys][access] No such file" — the two bracketed tags
are concatenated directly, with no single space separating the category
tag from the subcategory tag as the claim states. -/
theorem C4_tag_spacing_cex :
    lookupMsg Err.FS_NO_SUCH_FILE = "[fsys][access] No such file"
    ∧ lookupMsg Err.FS_NO_SUCH_FILE ≠ "[fsys] [access] No such file" :=
  ⟨by decide, by decide⟩

/-- C4 amended: render concatenates the bracketed category tag (if
category is not None) and the bracketed subcategory tag (if subcategory is
not None) directly, with no separator between the two tags; a single
space separates the tag block from the base message exactly when at least
one tag is present; absent tags contribute no stray separators. -/
theorem C4_render_concat_amended :
    ∀ c : Err,
      lookupMsg c =
        lookupPrefType (lookupInfo c).type
          ++ lookupPrefSubtype (lookupInfo c).subtype
          ++ (if lookupPrefType (lookupInfo c).type
                ++ lookupPrefSubtype (lookupInfo c).subtype = ""
              then "" else " ")
          ++ (lookupInfo c).msg := by
  intro c
  cases c <;> decide

/-- Witness for C4 amended at the concrete code FS_NO_SUCH_FILE. -/
theorem C4_render_concat_amended_witness :
    lookupMsg Err.FS_NO_SUCH_FILE =
      lookupPrefType (lookupInfo Err.FS_NO_SUCH_FILE).type
        ++ lookupPrefSubtype (lookupInfo Err.FS_NO_SUCH_FILE).subtype
        ++ (if lookupPrefType (lookupInfo Err.FS_NO_SUCH_FILE).type
              ++ lookupPrefSubtype (lookupInfo Err.FS_NO_SUCH_FILE).subtype = ""
            then "" else " ")
        ++ (lookupInfo Err.FS_NO_SUCH_FILE).msg :=
  C4_render_concat_amended Err.FS_NO_SUCH_FILE

/-- C5: evaluation of the code at the failing input.  `Result::msg()`
returns `lookup(data_.err)` — the legacy flat-table lookup, whose table
only covers the first two codes — so the Failure container holding
INDEX_OUT_OF_RANGE reports "Unknown Error", while the catalog rendering
`lookupMsg` of the same code is "[access] Index out of range" as the claim
and spec state. -/
theorem C5_msg_uses_flat_lookup :
    (Result.ofErr Err.INDEX_OUT_OF_RANGE : Result Int).msg = some "Unknown Error"
    ∧ lookup Err.INDEX_OUT_OF_RANGE = "Unknown Error"
    ∧ lookupMsg Err.INDEX_OUT_OF_RANGE = "[access] Index out of range" :=
  ⟨by decide, by decide, by decide⟩

/-- C6: move round-trip — constructing a container from a value of any
payload type, move-constructing a second container from it and a third
from the second, leaves the third in the Success state with the original
value read back unchanged by `value()`. -/
theorem C6_move_roundtrip :
    ∀ (T : Type) (v : T), ∃ r2 r3 : Result T,
      (Result.ofValue v).moveCtor = some r2
      ∧ r2.moveCtor = some r3
      ∧ r3.ok = true
      ∧ r3.value = some v :=
  fun _ v => ⟨Result.ofValue v, Result.ofValue v, rfl, rfl, rfl, rfl⟩

/-- Witness for C6 at payload type Int and value 5. -/
theorem C6_move_roundtrip_witness :
    ∃ r2 r3 : Result Int,
      (Result.ofValue (5 : Int)).moveCtor = some r2
      ∧ r2.moveCtor = some r3
      ∧ r3.ok = true
      ∧ r3.value = some (5 : Int) :=
  C6_move_roundtrip Int 5

/-- C7: copy-constructing from a Failure-state container holding code `e`
yields a copy that is also in the Failure state with the identical code,
and the original container afterwards still reports Failure and still
returns the same code (the copy constructor leaves the source untouched;
in this pure model the original is literally the same unchanged term). -/
theorem C7_copy_failure_preserves :
    ∀ (T : Type) (e : Err), ∃ c : Result T,
      (Result.ofErr e : Result T).copyCtor = some c
      ∧ c.bad = true
      ∧ c.err = some e
      ∧ (Result.ofErr e : Result T).bad = true
      ∧ (Result.ofErr e : Result T).err = some e :=
  fun _ e => ⟨Result.ofErr e, rfl, rfl, rfl, rfl, rfl⟩

/-- Witness for C7 at payload type Int and code FS_NO_SUCH_FILE. -/
theorem C7_copy_failure_preserves_witness :
    ∃ c : Result Int,
      (Result.ofErr Err.FS_NO_SUCH_FILE : Result Int).copyCtor = some c
      ∧ c.bad = true
      ∧ c.err = some Err.FS_NO_SUCH_FILE
      ∧ (Result.ofErr Err.FS_NO_SUCH_FILE : Result Int).bad = true
      ∧ (Result.ofErr Err.FS_NO_SUCH_FILE : Result Int).err = some Err.FS_NO_SUCH_FILE :=
  C7_copy_failure_preserves Int Err.FS_NO_SUCH_FILE

/-- C8: for every payload type, a Result constructed with `Err::OK`
signals failure — `bad` returns true, `ok` returns false — with the
stored code OK, and its rendered message is "Ok" (both through the
container's own `msg()` and through the catalog renderer). -/
theorem C8_ok_code_result :
    ∀ T : Type,
      (Result.ofErr Err.OK : Result T).bad = true
      ∧ (Result.ofErr Err.OK : Result T).ok = false
      ∧ (Result.ofErr Err.OK : Result T).err = some Err.OK
      ∧ (Result.ofErr Err.OK : Result T).msg = some "Ok"
      ∧ lookupMsg Err.OK = "Ok" :=
  fun _ => ⟨rfl, rfl, rfl, rfl, by decide⟩

/-- Witness for C8 at payload type Int. -/
theorem C8_ok_code_result_witness :
    (Result.ofErr Err.OK : Result Int).bad = true
    ∧ (Result.ofErr Err.OK : Result Int).msg = some "Ok" :=
  ⟨(C8_ok_code_result Int).1, (C8_ok_code_result Int).2.2.2.1⟩

/-- C9: Status derives success from its stored code rather than a
separate tag: `Status(e).ok()` is the test `e == OK`, `bad()` is the test
`e != OK`, `err()` returns the stored code; the default-constructed
Status holds OK and reports success. -/
theorem C9_status_code_derived :
    (∀ e : Err, (Status.ofErr e).ok = decide (e = Err.OK)
      ∧ (Status.ofErr e).bad = decide (e ≠ Err.OK)
      ∧ (Status.ofErr e).err = e)
    ∧ Status.mkDefault.err = Err.OK
    ∧ Status.mkDefault.ok = true :=
  ⟨fun _ => ⟨rfl, rfl, rfl⟩, rfl, rfl⟩

/-- Witness for C9 at the concrete code FAILURE. -/
theorem C9_status_code_derived_witness :
    (Status.ofErr Err.FAILURE).ok = decide (Err.FAILURE = Err.OK)
    ∧ (Status.ofErr Err.FAILURE).err = Err.FAILURE :=
  ⟨(C9_status_code_derived.1 Err.FAILURE).1,
   (C9_status_code_derived.1 Err.FAILURE).2.2⟩

/-- C10 counterexample: the view "a" is not a well-formed number, yet it
contains none of the dispatch characters, so `readF32`/`readF64` take the
unchecked fast path and return the finite number 49 (the digit
accumulation of the byte of 'a'), not the NaN sentinel — refuting the
claim that every malformed input yields NaN. -/
theorem C10_fastpath_not_nan_cex :
    parseNumber ['a'] = none
    ∧ hasSpecial ['a'] = false
    ∧ readF32 ['a'] = FVal.num 49
    ∧ readF64 ['a'] = FVal.num 49
    ∧ FVal.num 49 ≠ FVal.nan :=
  ⟨by decide, by decide, by decide, by decide, by decide⟩

/-- C10 amended: parsing returns a raw numeric outcome directly, never a
Result container; an input containing one of the characters minus, plus,
dot, 'e', 'E' is routed to the validating full parse and yields the NaN
sentinel when malformed, while an input without any of those characters
takes the unchecked fast path and always yields the finite digit
accumulation value — never NaN, even when malformed. -/
theorem C10_read_dispatch_amended :
    (∀ s : List Char, hasSpecial s = false → read s = FVal.num (readFastVal s))
    ∧ (∀ s : List Char,
        hasSpecial s = true → parseNumber s = none → read s = FVal.nan) := by
  constructor
  · intro s h
    simp [read, h, readFast]
  · intro s h hp
    simp [read, h, readFull, hp]

/-- Witness for C10 amended at the fast-path input "b" and the malformed
full-parse input "-". -/
theorem C10_read_dispatch_amended_witness :
    read ['b'] = FVal.num (readFastVal ['b']) ∧ read ['-'] = FVal.nan :=
  ⟨C10_read_dispatch_amended.1 ['b'] (by decide),
   C10_read_dispatch_amended.2 ['-'] (by decide) (by decide)⟩

end Srr

